import Mathlib

/-!
Verification of `src/acestep/ui/gradio/events/__init__.py` from ACE-Step-1.5.

The file under study is UI event-wiring glue: `setup_event_handlers` and
`setup_training_event_handlers` build a wiring-context record from their
arguments and invoke a fixed sequence of registration calls, plus one inline
file-upload event chain.  We embed the module shallowly: the externally
defined registration helpers (from `.wiring` and `generation_handlers`,
which are not part of this fragment) are modelled as trace events, and the
two setup functions become pure Lean functions that return the ordered list
of registration calls they perform.  Python dictionary lookups
(`generation_section["load_file"]` and friends) become `Except`-valued
lookups, so a missing key surfaces as an error of the setup call itself,
matching Python's `KeyError` at registration time.
-/

namespace ACEStep

/-- `GenerationWiringContext` from `src/acestep/ui/gradio/events/__init__.py`
(imported from `.wiring`; the spec describes it as a read-only aggregate of
the root container, the three handlers and the three component maps).
Component maps are partial maps from key strings to components. -/
structure GenerationWiringContext (α : Type) where
  demo : α
  dit_handler : α
  llm_handler : α
  dataset_handler : α
  dataset_section : String → Option α
  generation_section : String → Option α
  results_section : String → Option α


/-- `TrainingWiringContext` from the same module: root container, two
handlers and the training-section component map. -/
structure TrainingWiringContext (α : Type) where
  demo : α
  dit_handler : α
  llm_handler : α
  training_section : String → Option α


/-- The callback attached to an event binding.  `loadMetadataWith llm`
models the source lambda `lambda file_obj: gen_h.load_metadata(file_obj,
llm_handler)`: it applies `gen_h.load_metadata` to exactly the uploaded
file object and the captured `llm_handler`.  `uncheckAutoForPopulatedFields`
models the function object `gen_h.uncheck_auto_for_populated_fields`. -/
inductive EventFn (α : Type) where
  | loadMetadataWith (llm_handler : α)
  | uncheckAutoForPopulatedFields


/-- One registration call performed by the two setup functions.  Each
constructor records the arguments the source passes at that call site.
The externally defined registration helpers are modelled as opaque trace
events (their bodies live outside this fragment); `uploadChain` is the one
inline binding written directly in this file:
`generation_section["load_file"].upload(...).then(...)`. -/
inductive RegCall (α : Type) where
  | generationService (ctx : GenerationWiringContext α)
  | generationMetadata (ctx : GenerationWiringContext α)
      (auto_checkbox_inputs auto_checkbox_outputs : List α)
  | generationMode (ctx : GenerationWiringContext α)
      (mode_ui_outputs auto_checkbox_inputs auto_checkbox_outputs : List α)
  | uploadChain (component : α) (fn : EventFn α)
      (inputs outputs : List α) (then_fn : EventFn α)
      (then_inputs then_outputs : List α)
  | resultsSaveButton (ctx : GenerationWiringContext α)
  | resultsAux (ctx : GenerationWiringContext α) (mode_ui_outputs : List α)
  | generationRun (ctx : GenerationWiringContext α)
  | generationBatchNavigation (ctx : GenerationWiringContext α)
  | resultsRestoreAndLrc (ctx : GenerationWiringContext α)
  | trainingDatasetLoad (ctx : TrainingWiringContext α)
      (button_key path_key status_key : String)
  | trainingDatasetBuilder (ctx : TrainingWiringContext α)
  | trainingPreprocess (ctx : TrainingWiringContext α)
  | trainingRun (ctx : TrainingWiringContext α)


/-- Python dictionary subscription `m[k]`: yields the value, or raises
`KeyError k` when the key is absent. -/
def dictGet {α : Type} (m : String → Option α) (k : String) : Except String α :=
  match m k with
  | some v => Except.ok v
  | none => Except.error k

/-- Subscribe a sequence of keys in order, propagating the first
`KeyError`; models the literal list of subscriptions in the source's
`outputs=[...]` argument. -/
def dictGetAll {α : Type} (m : String → Option α) : List String → Except String (List α)
  | [] => Except.ok []
  | k :: ks => do
    let v ← dictGet m k
    let vs ← dictGetAll m ks
    pure (v :: vs)

/-- The 37 `generation_section` keys subscribed, in source order, in the
`outputs=[...]` list of the `load_file` upload binding
(`src/acestep/ui/gradio/events/__init__.py` lines 88-124). -/
def loadMetadataGenerationKeys : List String :=
  ["task_type", "captions", "lyrics", "vocal_language", "bpm", "key_scale",
   "time_signature", "audio_duration", "batch_size_input", "inference_steps",
   "guidance_scale", "seed", "random_seed_checkbox", "use_adg",
   "cfg_interval_start", "cfg_interval_end", "shift", "infer_method",
   "custom_timesteps", "audio_format", "lm_temperature", "lm_cfg_scale",
   "lm_top_k", "lm_top_p", "lm_negative_prompt", "use_cot_metas",
   "use_cot_caption", "use_cot_language", "audio_cover_strength",
   "cover_noise_strength", "think_checkbox", "text2music_audio_code_string",
   "repainting_start", "repainting_end", "track_name",
   "complete_track_classes", "instrumental_checkbox"]

/-- `setup_event_handlers` (lines 26-139 of the source), embedded as a
trace-producing function.  The externally defined
`register_generation_service_handlers` returns the pair
`(auto_checkbox_inputs, auto_checkbox_outputs)` and `build_mode_ui_outputs`
returns `mode_ui_outputs`; both live outside this fragment, so the
embedding abstracts them as the function arguments `service_ret` and
`mode_ret`.  The result is the Python return value (`None`, i.e. `Unit`)
paired with the ordered trace of registration calls; a missing component
key yields `Except.error` (Python `KeyError` during the setup call). -/
def setup_event_handlers {α : Type}
    (demo dit_handler llm_handler dataset_handler : α)
    (dataset_section generation_section results_section : String → Option α)
    (service_ret : GenerationWiringContext α → List α × List α)
    (mode_ret : GenerationWiringContext α → List α) :
    Except String (Unit × List (RegCall α)) := do
  let wiring_context : GenerationWiringContext α :=
    ⟨demo, dit_handler, llm_handler, dataset_handler,
     dataset_section, generation_section, results_section⟩
  let serviceLists := service_ret wiring_context
  let auto_checkbox_inputs := serviceLists.1
  let auto_checkbox_outputs := serviceLists.2
  let mode_ui_outputs := mode_ret wiring_context
  let load_file ← dictGet generation_section "load_file"
  let genOutputs ← dictGetAll generation_section loadMetadataGenerationKeys
  let is_format_caption_state ← dictGet results_section "is_format_caption_state"
  pure ((),
    [RegCall.generationService wiring_context,
     RegCall.generationMetadata wiring_context
       auto_checkbox_inputs auto_checkbox_outputs,
     RegCall.generationMode wiring_context
       mode_ui_outputs auto_checkbox_inputs auto_checkbox_outputs,
     RegCall.uploadChain load_file (EventFn.loadMetadataWith llm_handler)
       [load_file] (genOutputs ++ [is_format_caption_state])
       EventFn.uncheckAutoForPopulatedFields
       auto_checkbox_inputs auto_checkbox_outputs,
     RegCall.resultsSaveButton wiring_context,
     RegCall.resultsAux wiring_context mode_ui_outputs,
     RegCall.generationRun wiring_context,
     RegCall.generationBatchNavigation wiring_context,
     RegCall.resultsRestoreAndLrc wiring_context])

/-- `setup_training_event_handlers` (lines 142-176 of the source): builds
the training context and performs five registration calls, two of them
`register_training_dataset_load_handler` with distinct key triples.  No
dictionary subscription occurs in this function's own body, so it is
total; the result is the Python return value (`None`) paired with the
ordered trace. -/
def setup_training_event_handlers {α : Type}
    (demo dit_handler llm_handler : α)
    (training_section : String → Option α) :
    Unit × List (RegCall α) :=
  let training_context : TrainingWiringContext α :=
    ⟨demo, dit_handler, llm_handler, training_section⟩
  ((),
   [RegCall.trainingDatasetLoad training_context
      "load_json_btn" "load_json_path" "load_json_status",
    RegCall.trainingDatasetBuilder training_context,
    RegCall.trainingDatasetLoad training_context
      "load_existing_dataset_btn" "load_existing_dataset_path"
      "load_existing_status",
    RegCall.trainingPreprocess training_context,
    RegCall.trainingRun training_context])

/-- Kind discriminator for registration calls: a distinct index per
constructor, used to count how often each registration executes. -/
def kindIndex {α : Type} : RegCall α → Nat
  | .generationService _ => 0
  | .generationMetadata _ _ _ => 1
  | .generationMode _ _ _ _ => 2
  | .uploadChain _ _ _ _ _ _ _ => 3
  | .resultsSaveButton _ => 4
  | .resultsAux _ _ => 5
  | .generationRun _ => 6
  | .generationBatchNavigation _ => 7
  | .resultsRestoreAndLrc _ => 8
  | .trainingDatasetLoad _ _ _ _ => 9
  | .trainingDatasetBuilder _ => 10
  | .trainingPreprocess _ => 11
  | .trainingRun _ => 12

/-- The generation wiring context an external registration call receives,
when it receives one (the inline upload chain and the training calls take
none). -/
def genCtxOf {α : Type} : RegCall α → Option (GenerationWiringContext α)
  | .generationService c => some c
  | .generationMetadata c _ _ => some c
  | .generationMode c _ _ _ => some c
  | .resultsSaveButton c => some c
  | .resultsAux c _ => some c
  | .generationRun c => some c
  | .generationBatchNavigation c => some c
  | .resultsRestoreAndLrc c => some c
  | _ => none

/-- The training wiring context a registration call receives, when it is a
training registration call. -/
def trainCtxOf {α : Type} : RegCall α → Option (TrainingWiringContext α)
  | .trainingDatasetLoad c _ _ _ => some c
  | .trainingDatasetBuilder c => some c
  | .trainingPreprocess c => some c
  | .trainingRun c => some c
  | _ => none

/-- The `auto_checkbox_inputs` list a call site consumes, when it consumes
one: the metadata registration, the mode registration, and the `.then`
step of the upload chain. -/
def autoInputsOf {α : Type} : RegCall α → Option (List α)
  | .generationMetadata _ i _ => some i
  | .generationMode _ _ i _ => some i
  | .uploadChain _ _ _ _ _ ti _ => some ti
  | _ => none

/-- The `auto_checkbox_outputs` list a call site consumes, when it
consumes one. -/
def autoOutputsOf {α : Type} : RegCall α → Option (List α)
  | .generationMetadata _ _ o => some o
  | .generationMode _ _ _ o => some o
  | .uploadChain _ _ _ _ _ _ touts => some touts
  | _ => none

/-- The `mode_ui_outputs` list a call site consumes, when it consumes one:
the mode registration and the results-aux registration. -/
def modeOutputsOf {α : Type} : RegCall α → Option (List α)
  | .generationMode _ m _ _ => some m
  | .resultsAux _ m => some m
  | _ => none

/-- Whether a registration call consumes list state derived from an
earlier registration call (the generation setup threads such lists; the
training setup must not). -/
def carriesDerivedLists {α : Type} : RegCall α → Bool
  | .generationMetadata _ _ _ => true
  | .generationMode _ _ _ _ => true
  | .uploadChain _ _ _ _ _ _ _ => true
  | .resultsAux _ _ => true
  | _ => false

/-- Whether a registration call is one of the training-tab registrations. -/
def isTrainingCall {α : Type} : RegCall α → Bool
  | .trainingDatasetLoad _ _ _ _ => true
  | .trainingDatasetBuilder _ => true
  | .trainingPreprocess _ => true
  | .trainingRun _ => true
  | _ => false

/-- The component-map key strings a registration call mentions directly
(only the parameterized training dataset-load registration carries any). -/
def keyStringsOf {α : Type} : RegCall α → List String
  | .trainingDatasetLoad _ b p s => [b, p, s]
  | _ => []

theorem dictGet_ok_iff {α : Type} (m : String → Option α) (k : String) (v : α) :
    dictGet m k = Except.ok v ↔ m k = some v := by
  unfold dictGet
  cases h : m k <;> simp

theorem dictGet_error_of_none {α : Type} (m : String → Option α) (k : String)
    (h : m k = none) : dictGet m k = Except.error k := by
  unfold dictGet
  rw [h]

theorem dictGetAll_length {α : Type} (m : String → Option α) :
    ∀ ks vs, dictGetAll m ks = Except.ok vs → vs.length = ks.length := by
  intro ks
  induction ks with
  | nil =>
    intro vs h
    simp [dictGetAll] at h
    simp [← h]
  | cons k ks ih =>
    intro vs h
    simp only [dictGetAll, bind, Except.bind] at h
    cases hk : dictGet m k with
    | error e => rw [hk] at h; exact absurd h (by simp)
    | ok v =>
      rw [hk] at h
      cases hks : dictGetAll m ks with
      | error e => rw [hks] at h; exact absurd h (by simp)
      | ok vs₀ =>
        rw [hks] at h
        simp only [pure, Except.pure, Except.ok.injEq] at h
        subst h
        simp [ih vs₀ hks]

theorem dictGetAll_mem_some {α : Type} (m : String → Option α) :
    ∀ ks vs, dictGetAll m ks = Except.ok vs →
      ∀ k ∈ ks, ∃ v, m k = some v := by
  intro ks
  induction ks with
  | nil => intro vs _ k hk; exact absurd hk (by simp)
  | cons k₀ ks ih =>
    intro vs h k hk
    simp only [dictGetAll, bind, Except.bind] at h
    cases hk₀ : dictGet m k₀ with
    | error e => rw [hk₀] at h; exact absurd h (by simp)
    | ok v₀ =>
      rw [hk₀] at h
      cases hks : dictGetAll m ks with
      | error e => rw [hks] at h; exact absurd h (by simp)
      | ok vs₀ =>
        rcases List.mem_cons.mp hk with rfl | hmem
        · exact ⟨v₀, (dictGet_ok_iff m k v₀).mp hk₀⟩
        · exact ih vs₀ hks k hmem

theorem setup_event_handlers_ok_inv {α : Type}
    (demo dit_handler llm_handler dataset_handler : α)
    (dataset_section generation_section results_section : String → Option α)
    (service_ret : GenerationWiringContext α → List α × List α)
    (mode_ret : GenerationWiringContext α → List α)
    (u : Unit) (tr : List (RegCall α))
    (h : setup_event_handlers demo dit_handler llm_handler dataset_handler
      dataset_section generation_section results_section service_ret mode_ret
      = Except.ok (u, tr)) :
    ∃ lf genOuts ifc,
      dictGet generation_section "load_file" = Except.ok lf ∧
      dictGetAll generation_section loadMetadataGenerationKeys
        = Except.ok genOuts ∧
      dictGet results_section "is_format_caption_state" = Except.ok ifc ∧
      tr = (let ctx : GenerationWiringContext α :=
              ⟨demo, dit_handler, llm_handler, dataset_handler,
               dataset_section, generation_section, results_section⟩
            [RegCall.generationService ctx,
             RegCall.generationMetadata ctx
               (service_ret ctx).1 (service_ret ctx).2,
             RegCall.generationMode ctx
               (mode_ret ctx) (service_ret ctx).1 (service_ret ctx).2,
             RegCall.uploadChain lf (EventFn.loadMetadataWith llm_handler)
               [lf] (genOuts ++ [ifc])
               EventFn.uncheckAutoForPopulatedFields
               (service_ret ctx).1 (service_ret ctx).2,
             RegCall.resultsSaveButton ctx,
             RegCall.resultsAux ctx (mode_ret ctx),
             RegCall.generationRun ctx,
             RegCall.generationBatchNavigation ctx,
             RegCall.resultsRestoreAndLrc ctx]) := by
  unfold setup_event_handlers at h
  simp only [bind, Except.bind] at h
  cases hlf : dictGet generation_section "load_file" with
  | error e => rw [hlf] at h; exact absurd h (by simp)
  | ok lf =>
    rw [hlf] at h
    cases hgen : dictGetAll generation_section loadMetadataGenerationKeys with
    | error e => rw [hgen] at h; exact absurd h (by simp)
    | ok genOuts =>
      rw [hgen] at h
      cases hifc : dictGet results_section "is_format_caption_state" with
      | error e => rw [hifc] at h; exact absurd h (by simp)
      | ok ifc =>
        rw [hifc] at h
        simp only [pure, Except.pure, Except.ok.injEq, Prod.mk.injEq] at h
        exact ⟨lf, genOuts, ifc, rfl, rfl, rfl, h.2.symm⟩

/-- The generation wiring context `setup_event_handlers` constructs from
its arguments (source lines 56-64). -/
def mkGenCtx {α : Type} (demo dit_handler llm_handler dataset_handler : α)
    (dataset_section generation_section results_section : String → Option α) :
    GenerationWiringContext α :=
  ⟨demo, dit_handler, llm_handler, dataset_handler,
   dataset_section, generation_section, results_section⟩

/-- The training wiring context `setup_training_event_handlers` constructs
from its arguments (source lines 144-149). -/
def mkTrainCtx {α : Type} (demo dit_handler llm_handler : α)
    (training_section : String → Option α) : TrainingWiringContext α :=
  ⟨demo, dit_handler, llm_handler, training_section⟩

/-- C1: the upload binding on `generation_section["load_file"]` invokes
`load_metadata` with exactly the uploaded file object and `llm_handler`,
maps the returned tuple positionally onto the declared output list, and is
chained with an `uncheck_auto_for_populated_fields` step that receives the
same `auto_checkbox_inputs` and `auto_checkbox_outputs` lists forwarded to
the metadata and mode registration calls. -/
theorem c1_upload_binding_load_metadata_and_chained_auto_lists {α : Type}
    (demo dit_handler llm_handler dataset_handler : α)
    (dataset_section generation_section results_section : String → Option α)
    (service_ret : GenerationWiringContext α → List α × List α)
    (mode_ret : GenerationWiringContext α → List α)
    (u : Unit) (tr : List (RegCall α))
    (h : setup_event_handlers demo dit_handler llm_handler dataset_handler
      dataset_section generation_section results_section service_ret mode_ret
      = Except.ok (u, tr)) :
    ∃ lf genOuts ifc,
      tr.get? 3 = some (RegCall.uploadChain lf
        (EventFn.loadMetadataWith llm_handler) [lf] (genOuts ++ [ifc])
        EventFn.uncheckAutoForPopulatedFields
        (service_ret (mkGenCtx demo dit_handler llm_handler dataset_handler
          dataset_section generation_section results_section)).1
        (service_ret (mkGenCtx demo dit_handler llm_handler dataset_handler
          dataset_section generation_section results_section)).2) ∧
      tr.get? 1 = some (RegCall.generationMetadata
        (mkGenCtx demo dit_handler llm_handler dataset_handler
          dataset_section generation_section results_section)
        (service_ret (mkGenCtx demo dit_handler llm_handler dataset_handler
          dataset_section generation_section results_section)).1
        (service_ret (mkGenCtx demo dit_handler llm_handler dataset_handler
          dataset_section generation_section results_section)).2) ∧
      tr.get? 2 = some (RegCall.generationMode
        (mkGenCtx demo dit_handler llm_handler dataset_handler
          dataset_section generation_section results_section)
        (mode_ret (mkGenCtx demo dit_handler llm_handler dataset_handler
          dataset_section generation_section results_section))
        (service_ret (mkGenCtx demo dit_handler llm_handler dataset_handler
          dataset_section generation_section results_section)).1
        (service_ret (mkGenCtx demo dit_handler llm_handler dataset_handler
          dataset_section generation_section results_section)).2) := by
  obtain ⟨lf, genOuts, ifc, _, _, _, htr⟩ :=
    setup_event_handlers_ok_inv demo dit_handler llm_handler dataset_handler
      dataset_section generation_section results_section service_ret mode_ret
      u tr h
  subst htr
  exact ⟨lf, genOuts, ifc, rfl, rfl, rfl⟩

/-- C2: every invocation of `setup_event_handlers` performs each of the
nine registration calls exactly once (the trace has length nine and each
registration kind occurs once). -/
theorem c2_nine_registrations_each_once {α : Type}
    (demo dit_handler llm_handler dataset_handler : α)
    (dataset_section generation_section results_section : String → Option α)
    (service_ret : GenerationWiringContext α → List α × List α)
    (mode_ret : GenerationWiringContext α → List α)
    (u : Unit) (tr : List (RegCall α))
    (h : setup_event_handlers demo dit_handler llm_handler dataset_handler
      dataset_section generation_section results_section service_ret mode_ret
      = Except.ok (u, tr)) :
    tr.length = 9 ∧
    tr.countP (fun c => kindIndex c == 0) = 1 ∧
    tr.countP (fun c => kindIndex c == 1) = 1 ∧
    tr.countP (fun c => kindIndex c == 2) = 1 ∧
    tr.countP (fun c => kindIndex c == 3) = 1 ∧
    tr.countP (fun c => kindIndex c == 4) = 1 ∧
    tr.countP (fun c => kindIndex c == 5) = 1 ∧
    tr.countP (fun c => kindIndex c == 6) = 1 ∧
    tr.countP (fun c => kindIndex c == 7) = 1 ∧
    tr.countP (fun c => kindIndex c == 8) = 1 := by
  obtain ⟨lf, genOuts, ifc, _, _, _, htr⟩ :=
    setup_event_handlers_ok_inv demo dit_handler llm_handler dataset_handler
      dataset_section generation_section results_section service_ret mode_ret
      u tr h
  subst htr
  exact ⟨rfl, rfl, rfl, rfl, rfl, rfl, rfl, rfl, rfl, rfl⟩

/-- C3: the shared lists `auto_checkbox_inputs`, `auto_checkbox_outputs`
and `mode_ui_outputs` are produced once (by
`register_generation_service_handlers` and `build_mode_ui_outputs`) and
every consumer in the trace receives exactly those lists, so the
positional correspondence is identical at every call site. -/
theorem c3_shared_lists_identical_at_every_call_site {α : Type}
    (demo dit_handler llm_handler dataset_handler : α)
    (dataset_section generation_section results_section : String → Option α)
    (service_ret : GenerationWiringContext α → List α × List α)
    (mode_ret : GenerationWiringContext α → List α)
    (u : Unit) (tr : List (RegCall α))
    (h : setup_event_handlers demo dit_handler llm_handler dataset_handler
      dataset_section generation_section results_section service_ret mode_ret
      = Except.ok (u, tr)) :
    ∀ c ∈ tr,
      (autoInputsOf c = none ∨
        autoInputsOf c = some (service_ret (mkGenCtx demo dit_handler
          llm_handler dataset_handler dataset_section generation_section
          results_section)).1) ∧
      (autoOutputsOf c = none ∨
        autoOutputsOf c = some (service_ret (mkGenCtx demo dit_handler
          llm_handler dataset_handler dataset_section generation_section
          results_section)).2) ∧
      (modeOutputsOf c = none ∨
        modeOutputsOf c = some (mode_ret (mkGenCtx demo dit_handler
          llm_handler dataset_handler dataset_section generation_section
          results_section))) := by
  obtain ⟨lf, genOuts, ifc, _, _, _, htr⟩ :=
    setup_event_handlers_ok_inv demo dit_handler llm_handler dataset_handler
      dataset_section generation_section results_section service_ret mode_ret
      u tr h
  subst htr
  intro c hc
  simp only [List.mem_cons, List.not_mem_nil, or_false] at hc
  rcases hc with rfl | rfl | rfl | rfl | rfl | rfl | rfl | rfl | rfl <;>
    simp [autoInputsOf, autoOutputsOf, modeOutputsOf, mkGenCtx]

/-- C4: every invocation of `setup_training_event_handlers` calls
`register_training_dataset_load_handler` exactly twice, once with the
`load_json_*` key triple and once with the distinct `load_existing_*` key
triple: two independent bindings, neither overwriting the other. -/
theorem c4_training_dataset_load_called_twice_with_distinct_triples
    {α : Type} (demo dit_handler llm_handler : α)
    (training_section : String → Option α) :
    (setup_training_event_handlers demo dit_handler llm_handler
      training_section).2.countP (fun c => kindIndex c == 9) = 2 ∧
    RegCall.trainingDatasetLoad
      (mkTrainCtx demo dit_handler llm_handler training_section)
      "load_json_btn" "load_json_path" "load_json_status"
      ∈ (setup_training_event_handlers demo dit_handler llm_handler
          training_section).2 ∧
    RegCall.trainingDatasetLoad
      (mkTrainCtx demo dit_handler llm_handler training_section)
      "load_existing_dataset_btn" "load_existing_dataset_path"
      "load_existing_status"
      ∈ (setup_training_event_handlers demo dit_handler llm_handler
          training_section).2 ∧
    RegCall.trainingDatasetLoad
      (mkTrainCtx demo dit_handler llm_handler training_section)
      "load_json_btn" "load_json_path" "load_json_status"
      ≠ RegCall.trainingDatasetLoad
          (mkTrainCtx demo dit_handler llm_handler training_section)
          "load_existing_dataset_btn" "load_existing_dataset_path"
          "load_existing_status" := by
  refine ⟨rfl, List.Mem.head _,
    List.Mem.tail _ (List.Mem.tail _ (List.Mem.head _)), ?_⟩
  intro hEq
  injection hEq with h₁ h₂ h₃ h₄
  exact absurd h₂ (by decide)

/-- C5: when `generation_section` lacks `"load_file"` or any of the 37
metadata output keys, or `results_section` lacks
`"is_format_caption_state"`, `setup_event_handlers` fails during the setup
call itself with a key-lookup error, not lazily at event-fire time. -/
theorem c5_missing_required_key_fails_at_setup_time {α : Type}
    (demo dit_handler llm_handler dataset_handler : α)
    (dataset_section generation_section results_section : String → Option α)
    (service_ret : GenerationWiringContext α → List α × List α)
    (mode_ret : GenerationWiringContext α → List α)
    (h : generation_section "load_file" = none ∨
      (∃ k ∈ loadMetadataGenerationKeys, generation_section k = none) ∨
      results_section "is_format_caption_state" = none) :
    ∃ e, setup_event_handlers demo dit_handler llm_handler dataset_handler
      dataset_section generation_section results_section service_ret mode_ret
      = Except.error e := by
  cases hres : setup_event_handlers demo dit_handler llm_handler
      dataset_handler dataset_section generation_section results_section
      service_ret mode_ret with
  | error e => exact ⟨e, rfl⟩
  | ok r =>
    exfalso
    obtain ⟨u, tr⟩ := r
    obtain ⟨lf, genOuts, ifc, hlf, hgen, hifc, _⟩ :=
      setup_event_handlers_ok_inv demo dit_handler llm_handler
        dataset_handler dataset_section generation_section results_section
        service_ret mode_ret u tr hres
    rcases h with h | ⟨k, hk, hnone⟩ | h
    · rw [dictGet_ok_iff, h] at hlf
      exact absurd hlf (by simp)
    · obtain ⟨v, hv⟩ := dictGetAll_mem_some generation_section
        loadMetadataGenerationKeys genOuts hgen k hk
      rw [hnone] at hv
      exact absurd hv (by simp)
    · rw [dictGet_ok_iff, h] at hifc
      exact absurd hifc (by simp)

/-- C6: both setup functions return `None`, and the handler arguments flow
through unchanged: every wiring context recorded in the trace still holds
exactly the handler values that were passed in, so setup only registers
bindings and never alters the handlers. -/
theorem c6_setup_returns_none_and_handlers_flow_through_unchanged {α : Type}
    (demo dit_handler llm_handler dataset_handler : α)
    (dataset_section generation_section results_section : String → Option α)
    (service_ret : GenerationWiringContext α → List α × List α)
    (mode_ret : GenerationWiringContext α → List α)
    (demo₂ dit₂ llm₂ : α) (training_section : String → Option α)
    (u : Unit) (tr : List (RegCall α))
    (h : setup_event_handlers demo dit_handler llm_handler dataset_handler
      dataset_section generation_section results_section service_ret mode_ret
      = Except.ok (u, tr)) :
    u = () ∧
    (setup_training_event_handlers demo₂ dit₂ llm₂ training_section).1
      = () ∧
    (∀ c ∈ tr, ∀ g, genCtxOf c = some g →
      g.dit_handler = dit_handler ∧ g.llm_handler = llm_handler ∧
        g.dataset_handler = dataset_handler) ∧
    (∀ c ∈ (setup_training_event_handlers demo₂ dit₂ llm₂
        training_section).2, ∀ g, trainCtxOf c = some g →
      g.dit_handler = dit₂ ∧ g.llm_handler = llm₂) := by
  obtain ⟨lf, genOuts, ifc, _, _, _, htr⟩ :=
    setup_event_handlers_ok_inv demo dit_handler llm_handler dataset_handler
      dataset_section generation_section results_section service_ret mode_ret
      u tr h
  subst htr
  refine ⟨rfl, rfl, ?_, ?_⟩
  · intro c hc g hg
    simp only [List.mem_cons, List.not_mem_nil, or_false] at hc
    rcases hc with rfl | rfl | rfl | rfl | rfl | rfl | rfl | rfl | rfl <;>
      simp only [genCtxOf, Option.some.injEq] at hg <;>
      first
        | exact absurd hg (by simp [genCtxOf])
        | exact hg ▸ ⟨rfl, rfl, rfl⟩
  · intro c hc g hg
    simp only [setup_training_event_handlers, List.mem_cons,
      List.not_mem_nil, or_false] at hc
    rcases hc with rfl | rfl | rfl | rfl | rfl <;>
      simp only [trainCtxOf, Option.some.injEq] at hg <;>
      exact hg ▸ ⟨rfl, rfl⟩

/-- C7: each setup function constructs its wiring context exactly once
from its arguments, and every registration call in the trace that takes a
context receives that same context with the original field values. -/
theorem c7_single_context_with_original_fields_passed_to_every_call
    {α : Type} (demo dit_handler llm_handler dataset_handler : α)
    (dataset_section generation_section results_section : String → Option α)
    (service_ret : GenerationWiringContext α → List α × List α)
    (mode_ret : GenerationWiringContext α → List α)
    (demo₂ dit₂ llm₂ : α) (training_section : String → Option α)
    (u : Unit) (tr : List (RegCall α))
    (h : setup_event_handlers demo dit_handler llm_handler dataset_handler
      dataset_section generation_section results_section service_ret mode_ret
      = Except.ok (u, tr)) :
    (∀ c ∈ tr, genCtxOf c = none ∨
      genCtxOf c = some (mkGenCtx demo dit_handler llm_handler
        dataset_handler dataset_section generation_section
        results_section)) ∧
    (∀ c ∈ (setup_training_event_handlers demo₂ dit₂ llm₂
        training_section).2,
      trainCtxOf c = some (mkTrainCtx demo₂ dit₂ llm₂ training_section)) := by
  obtain ⟨lf, genOuts, ifc, _, _, _, htr⟩ :=
    setup_event_handlers_ok_inv demo dit_handler llm_handler dataset_handler
      dataset_section generation_section results_section service_ret mode_ret
      u tr h
  subst htr
  constructor
  · intro c hc
    simp only [List.mem_cons, List.not_mem_nil, or_false] at hc
    rcases hc with rfl | rfl | rfl | rfl | rfl | rfl | rfl | rfl | rfl <;>
      simp [genCtxOf, mkGenCtx]
  · intro c hc
    simp only [setup_training_event_handlers, List.mem_cons,
      List.not_mem_nil, or_false] at hc
    rcases hc with rfl | rfl | rfl | rfl | rfl <;>
      simp [trainCtxOf, mkTrainCtx]

/-- C8: `setup_training_event_handlers` returns `None` and threads no
derived state between its registration calls: no call in its trace
consumes a list produced by an earlier registration call. -/
theorem c8_training_setup_threads_no_derived_state {α : Type}
    (demo dit_handler llm_handler : α)
    (training_section : String → Option α) :
    (setup_training_event_handlers demo dit_handler llm_handler
      training_section).1 = () ∧
    ∀ c ∈ (setup_training_event_handlers demo dit_handler llm_handler
        training_section).2, carriesDerivedLists c = false := by
  refine ⟨rfl, ?_⟩
  intro c hc
  simp only [setup_training_event_handlers, List.mem_cons,
    List.not_mem_nil, or_false] at hc
  rcases hc with rfl | rfl | rfl | rfl | rfl <;> rfl

/-- C9: the upload binding declares exactly one input
(`generation_section["load_file"]`) and exactly 38 outputs: the 37
`generation_section` keys in fixed order beginning with `task_type` and
ending with `instrumental_checkbox`, followed by the single
`results_section` key `is_format_caption_state`, which is always last. -/
theorem c9_upload_binding_has_38_fixed_order_outputs_one_input {α : Type}
    (demo dit_handler llm_handler dataset_handler : α)
    (dataset_section generation_section results_section : String → Option α)
    (service_ret : GenerationWiringContext α → List α × List α)
    (mode_ret : GenerationWiringContext α → List α)
    (u : Unit) (tr : List (RegCall α))
    (h : setup_event_handlers demo dit_handler llm_handler dataset_handler
      dataset_section generation_section results_section service_ret mode_ret
      = Except.ok (u, tr)) :
    ∃ lf genOuts ifc,
      generation_section "load_file" = some lf ∧
      dictGetAll generation_section loadMetadataGenerationKeys
        = Except.ok genOuts ∧
      results_section "is_format_caption_state" = some ifc ∧
      tr.get? 3 = some (RegCall.uploadChain lf
        (EventFn.loadMetadataWith llm_handler) [lf] (genOuts ++ [ifc])
        EventFn.uncheckAutoForPopulatedFields
        (service_ret (mkGenCtx demo dit_handler llm_handler dataset_handler
          dataset_section generation_section results_section)).1
        (service_ret (mkGenCtx demo dit_handler llm_handler dataset_handler
          dataset_section generation_section results_section)).2) ∧
      genOuts.length = 37 ∧
      (genOuts ++ [ifc]).length = 38 ∧
      (genOuts ++ [ifc]).getLast? = some ifc ∧
      loadMetadataGenerationKeys.length = 37 ∧
      loadMetadataGenerationKeys.head? = some "task_type" ∧
      loadMetadataGenerationKeys.getLast? = some "instrumental_checkbox" := by
  obtain ⟨lf, genOuts, ifc, hlf, hgen, hifc, htr⟩ :=
    setup_event_handlers_ok_inv demo dit_handler llm_handler dataset_handler
      dataset_section generation_section results_section service_ret mode_ret
      u tr h
  subst htr
  have hlen : genOuts.length = 37 :=
    dictGetAll_length generation_section loadMetadataGenerationKeys genOuts
      hgen
  refine ⟨lf, genOuts, ifc, (dictGet_ok_iff _ _ _).mp hlf, hgen,
    (dictGet_ok_iff _ _ _).mp hifc, rfl, hlen, ?_, ?_, rfl, rfl, rfl⟩
  · simp [hlen]
  · simp

/-- C10: `setup_training_event_handlers` takes no dataset handler and no
dataset/generation/results component maps; every call in its trace is a
training registration carrying only the training context built from
`demo`, `dit_handler`, `llm_handler` and `training_section`, and mentions
only training-section key names, so training wiring cannot read or affect
generation or results UI components. -/
theorem c10_training_wiring_confined_to_training_section {α : Type}
    (demo dit_handler llm_handler : α)
    (training_section : String → Option α) :
    ∀ c ∈ (setup_training_event_handlers demo dit_handler llm_handler
        training_section).2,
      isTrainingCall c = true ∧
      trainCtxOf c = some (mkTrainCtx demo dit_handler llm_handler
        training_section) ∧
      genCtxOf c = none ∧
      keyStringsOf c ⊆ ["load_json_btn", "load_json_path",
        "load_json_status", "load_existing_dataset_btn",
        "load_existing_dataset_path", "load_existing_status"] := by
  intro c hc
  simp only [setup_training_event_handlers, List.mem_cons,
    List.not_mem_nil, or_false] at hc
  rcases hc with rfl | rfl | rfl | rfl | rfl <;>
    refine ⟨rfl, rfl, rfl, ?_⟩ <;> simp [keyStringsOf]

/-- Concrete dataset-section map for witnesses (no keys needed by the
wiring itself). -/
def wDatasetSec : String → Option Nat := fun _ => none

/-- Concrete generation-section map for witnesses: every key present. -/
def wGenSec : String → Option Nat := fun _ => some 10

/-- Concrete results-section map for witnesses: every key present. -/
def wResSec : String → Option Nat := fun _ => some 20

/-- Concrete training-section map for witnesses: every key present. -/
def wTrainSec : String → Option Nat := fun _ => some 30

/-- Concrete stand-in for `register_generation_service_handlers`
returning fixed auto-checkbox lists. -/
def wServiceRet : GenerationWiringContext Nat → List Nat × List Nat :=
  fun _ => ([4], [5])

/-- Concrete stand-in for `build_mode_ui_outputs`. -/
def wModeRet : GenerationWiringContext Nat → List Nat := fun _ => [6]

/-- Concrete generation-section map missing the required key
`"task_type"`. -/
def wGenSecMissing : String → Option Nat :=
  fun k => if k = "task_type" then none else some 10

theorem c1_witness :
    ∃ u tr, setup_event_handlers 0 1 2 3 wDatasetSec wGenSec wResSec
        wServiceRet wModeRet = Except.ok (u, tr) ∧
      ∃ lf genOuts ifc,
        tr.get? 3 = some (RegCall.uploadChain lf
          (EventFn.loadMetadataWith 2) [lf] (genOuts ++ [ifc])
          EventFn.uncheckAutoForPopulatedFields
          (wServiceRet (mkGenCtx 0 1 2 3 wDatasetSec wGenSec wResSec)).1
          (wServiceRet (mkGenCtx 0 1 2 3 wDatasetSec wGenSec wResSec)).2) ∧
        tr.get? 1 = some (RegCall.generationMetadata
          (mkGenCtx 0 1 2 3 wDatasetSec wGenSec wResSec)
          (wServiceRet (mkGenCtx 0 1 2 3 wDatasetSec wGenSec wResSec)).1
          (wServiceRet (mkGenCtx 0 1 2 3 wDatasetSec wGenSec wResSec)).2) ∧
        tr.get? 2 = some (RegCall.generationMode
          (mkGenCtx 0 1 2 3 wDatasetSec wGenSec wResSec)
          (wModeRet (mkGenCtx 0 1 2 3 wDatasetSec wGenSec wResSec))
          (wServiceRet (mkGenCtx 0 1 2 3 wDatasetSec wGenSec wResSec)).1
          (wServiceRet (mkGenCtx 0 1 2 3 wDatasetSec wGenSec wResSec)).2) :=
  ⟨(), _, rfl, c1_upload_binding_load_metadata_and_chained_auto_lists
    0 1 2 3 wDatasetSec wGenSec wResSec wServiceRet wModeRet () _ rfl⟩

theorem c2_witness :
    ∃ u tr, setup_event_handlers 0 1 2 3 wDatasetSec wGenSec wResSec
        wServiceRet wModeRet = Except.ok (u, tr) ∧
      (tr.length = 9 ∧
       tr.countP (fun c => kindIndex c == 0) = 1 ∧
       tr.countP (fun c => kindIndex c == 1) = 1 ∧
       tr.countP (fun c => kindIndex c == 2) = 1 ∧
       tr.countP (fun c => kindIndex c == 3) = 1 ∧
       tr.countP (fun c => kindIndex c == 4) = 1 ∧
       tr.countP (fun c => kindIndex c == 5) = 1 ∧
       tr.countP (fun c => kindIndex c == 6) = 1 ∧
       tr.countP (fun c => kindIndex c == 7) = 1 ∧
       tr.countP (fun c => kindIndex c == 8) = 1) :=
  ⟨(), _, rfl, c2_nine_registrations_each_once
    0 1 2 3 wDatasetSec wGenSec wResSec wServiceRet wModeRet () _ rfl⟩

theorem c3_witness :
    ∃ u tr, setup_event_handlers 0 1 2 3 wDatasetSec wGenSec wResSec
        wServiceRet wModeRet = Except.ok (u, tr) ∧
      ∀ c ∈ tr,
        (autoInputsOf c = none ∨
          autoInputsOf c = some
            (wServiceRet (mkGenCtx 0 1 2 3 wDatasetSec wGenSec wResSec)).1) ∧
        (autoOutputsOf c = none ∨
          autoOutputsOf c = some
            (wServiceRet (mkGenCtx 0 1 2 3 wDatasetSec wGenSec wResSec)).2) ∧
        (modeOutputsOf c = none ∨
          modeOutputsOf c = some
            (wModeRet (mkGenCtx 0 1 2 3 wDatasetSec wGenSec wResSec))) :=
  ⟨(), _, rfl, c3_shared_lists_identical_at_every_call_site
    0 1 2 3 wDatasetSec wGenSec wResSec wServiceRet wModeRet () _ rfl⟩

theorem c5_witness :
    (wGenSecMissing "load_file" = none ∨
      (∃ k ∈ loadMetadataGenerationKeys, wGenSecMissing k = none) ∨
      wResSec "is_format_caption_state" = none) ∧
    ∃ e, setup_event_handlers 0 1 2 3 wDatasetSec wGenSecMissing wResSec
      wServiceRet wModeRet = Except.error e :=
  ⟨Or.inr (Or.inl ⟨"task_type", List.Mem.head _, rfl⟩),
   c5_missing_required_key_fails_at_setup_time
     0 1 2 3 wDatasetSec wGenSecMissing wResSec wServiceRet wModeRet
     (Or.inr (Or.inl ⟨"task_type", List.Mem.head _, rfl⟩))⟩

theorem c6_witness :
    ∃ u tr, setup_event_handlers 0 1 2 3 wDatasetSec wGenSec wResSec
        wServiceRet wModeRet = Except.ok (u, tr) ∧
      (u = () ∧
       (setup_training_event_handlers 7 8 9 wTrainSec).1 = () ∧
       (∀ c ∈ tr, ∀ g, genCtxOf c = some g →
         g.dit_handler = 1 ∧ g.llm_handler = 2 ∧ g.dataset_handler = 3) ∧
       (∀ c ∈ (setup_training_event_handlers 7 8 9 wTrainSec).2, ∀ g,
         trainCtxOf c = some g → g.dit_handler = 8 ∧ g.llm_handler = 9)) :=
  ⟨(), _, rfl, c6_setup_returns_none_and_handlers_flow_through_unchanged
    0 1 2 3 wDatasetSec wGenSec wResSec wServiceRet wModeRet
    7 8 9 wTrainSec () _ rfl⟩

theorem c7_witness :
    ∃ u tr, setup_event_handlers 0 1 2 3 wDatasetSec wGenSec wResSec
        wServiceRet wModeRet = Except.ok (u, tr) ∧
      ((∀ c ∈ tr, genCtxOf c = none ∨
         genCtxOf c = some (mkGenCtx 0 1 2 3 wDatasetSec wGenSec wResSec)) ∧
       (∀ c ∈ (setup_training_event_handlers 7 8 9 wTrainSec).2,
         trainCtxOf c = some (mkTrainCtx 7 8 9 wTrainSec))) :=
  ⟨(), _, rfl, c7_single_context_with_original_fields_passed_to_every_call
    0 1 2 3 wDatasetSec wGenSec wResSec wServiceRet wModeRet
    7 8 9 wTrainSec () _ rfl⟩

theorem c9_witness :
    ∃ u tr, setup_event_handlers 0 1 2 3 wDatasetSec wGenSec wResSec
        wServiceRet wModeRet = Except.ok (u, tr) ∧
      ∃ lf genOuts ifc,
        wGenSec "load_file" = some lf ∧
        dictGetAll wGenSec loadMetadataGenerationKeys = Except.ok genOuts ∧
        wResSec "is_format_caption_state" = some ifc ∧
        tr.get? 3 = some (RegCall.uploadChain lf
          (EventFn.loadMetadataWith 2) [lf] (genOuts ++ [ifc])
          EventFn.uncheckAutoForPopulatedFields
          (wServiceRet (mkGenCtx 0 1 2 3 wDatasetSec wGenSec wResSec)).1
          (wServiceRet (mkGenCtx 0 1 2 3 wDatasetSec wGenSec wResSec)).2) ∧
        genOuts.length = 37 ∧
        (genOuts ++ [ifc]).length = 38 ∧
        (genOuts ++ [ifc]).getLast? = some ifc ∧
        loadMetadataGenerationKeys.length = 37 ∧
        loadMetadataGenerationKeys.head? = some "task_type" ∧
        loadMetadataGenerationKeys.getLast? = some "instrumental_checkbox" :=
  ⟨(), _, rfl, c9_upload_binding_has_38_fixed_order_outputs_one_input
    0 1 2 3 wDatasetSec wGenSec wResSec wServiceRet wModeRet () _ rfl⟩

theorem c10_witness :
    (RegCall.trainingDatasetLoad (mkTrainCtx 7 8 9 wTrainSec)
        "load_json_btn" "load_json_path" "load_json_status"
      ∈ (setup_training_event_handlers 7 8 9 wTrainSec).2) ∧
    (isTrainingCall (RegCall.trainingDatasetLoad (mkTrainCtx 7 8 9 wTrainSec)
        "load_json_btn" "load_json_path" "load_json_status") = true ∧
     trainCtxOf (RegCall.trainingDatasetLoad (mkTrainCtx 7 8 9 wTrainSec)
        "load_json_btn" "load_json_path" "load_json_status")
       = some (mkTrainCtx 7 8 9 wTrainSec) ∧
     genCtxOf (RegCall.trainingDatasetLoad (mkTrainCtx 7 8 9 wTrainSec)
        "load_json_btn" "load_json_path" "load_json_status") = none ∧
     keyStringsOf (RegCall.trainingDatasetLoad (mkTrainCtx 7 8 9 wTrainSec)
        "load_json_btn" "load_json_path" "load_json_status")
       ⊆ ["load_json_btn", "load_json_path", "load_json_status",
          "load_existing_dataset_btn", "load_existing_dataset_path",
          "load_existing_status"]) :=
  ⟨List.Mem.head _,
   c10_training_wiring_confined_to_training_section 7 8 9 wTrainSec _
     (List.Mem.head _)⟩

end ACEStep
